import Mathlib

set_option linter.unnecessarySeqFocus false

/-!
# Verification of the dental-clinic chatbot dialogue engine

Shallow embedding of the dialogue orchestration engine of the `dental`
repository:

* `src/src/bot/NLPService.ts` — intent classification (`normalizeText`,
  `checkQuickPatterns`, `analyzeInFlow`, `detectIntent`, the ChatGPT
  fallback of `analyzeWithChatGPT`);
* `src/src/bot/ConversationManager.ts` — flow registry, step validation
  and transition (`validateInput`, `saveStepData`, `executeFlowStep`,
  `handleCurrentFlow`, `handleBookingFlow`, `completeBooking`,
  the cancellation flow);
* `src/src/bot/BotEngine.ts` (first class in the file, whose line
  numbers the claims cite) — `processMessage`, `handleIntent`,
  `handleGreeting`, `handleFallback`, `updateSession`, `checkRateLimit`;
* the `PhoneUtils` class appended to `BotEngine.ts`.

Conventions of the embedding:

* Strings are Lean `String`s; the JavaScript regular expressions of the
  source are embedded as executable predicates over `List Char`.  The
  source's regexes use `\w` and `\b` without the `u` flag, so `\w` is
  the ASCII class `[A-Za-z0-9_]` and `\b` is a boundary relative to that
  ASCII class; the embedding reproduces this exactly (in particular a
  `\b`-delimited Cyrillic alternative can never match, because a
  Cyrillic letter is not a `\w` character).
* Database effects are made explicit: every
  `UPDATE chat_sessions SET session_data = ...` of the source appends
  the written conversation state to a `writes` list, and every
  `INSERT INTO appointments` increments an `appts` counter.  Reads that
  the source performs against the database (clinic row, patient name,
  doctors, upcoming appointments, available dates) are supplied through
  an `Env` record.  Writes to other tables (patients, message_logs) are
  not session-state writes and are not counted.
* The optional ChatGPT call is an oracle parameter
  `Option (Except Unit ChatResp)`: `none` models an empty
  `OPENAI_API_KEY`, `some (.ok r)` a successful call returning `r`, and
  `some (.error ())` a failed or timed-out call (the `catch` branch of
  `analyzeWithChatGPT`).
* Confidences are rationals (`ℚ`), matching the source's decimal
  literals.
* `Date`-valued fields (`startTime`, `lastMessageTime`, locale-formatted
  dates) are wall-clock dependent; the embedding keeps `lastMessageTime`
  as a presence flag and models the locale formatting functions as the
  identity on the date string, since no claim depends on the rendering.
-/

/-! ## JavaScript string primitives -/

/-- JS `\s` for the characters that occur in this codebase
(space, tab, newline, carriage return). -/
def jsIsWs (c : Char) : Bool :=
  c = ' ' || c = '\t' || c = '\n' || c = '\r'

/-- JS `\w` without the `u` flag: ASCII letters, ASCII digits, underscore. -/
def isWordCh (c : Char) : Bool :=
  ('a' ≤ c && c ≤ 'z') || ('A' ≤ c && c ≤ 'Z') || c.isDigit || c = '_'

/-- JS `String.prototype.toLowerCase` restricted to the alphabets this
codebase uses: ASCII `A`–`Z` and Cyrillic `А`–`Я` plus `Ё`. -/
def jsToLower (c : Char) : Char :=
  if 'A' ≤ c && c ≤ 'Z' then Char.ofNat (c.toNat + 32)
  else if 'А' ≤ c && c ≤ 'Я' then Char.ofNat (c.toNat + 32)
  else if c = 'Ё' then 'ё'
  else c

/-- `w.isPrefixOf s` on character lists, executable. -/
def leadsWith : List Char → List Char → Bool
  | [], _ => true
  | _ :: _, [] => false
  | a :: as, b :: bs => a = b && leadsWith as bs

/-- JS `String.prototype.includes` on character lists. -/
def hasSubstrL (w : List Char) : List Char → Bool
  | [] => w.isEmpty
  | c :: rest => leadsWith w (c :: rest) || hasSubstrL w rest

/-- JS `String.prototype.includes`. -/
def jsIncludes (w s : String) : Bool :=
  hasSubstrL w.data s.data

/-- Lowercase a whole string with `jsToLower`. -/
def jsLowerStr (s : String) : String :=
  String.mk (s.data.map jsToLower)

/-- Word-character test on an optional character (out-of-range = not a
word character, as at the ends of a string). -/
def isWordChOpt : Option Char → Bool
  | some c => isWordCh c
  | none => false

/-- JS `\b`: a boundary sits between two positions iff exactly one side
holds a `\w` character. -/
def boundaryB (a b : Option Char) : Bool :=
  isWordChOpt a != isWordChOpt b

/-- Scan for an occurrence of `w` delimited by `\b` on both sides.
`wl` is the last character of `w`; `prev` is the character preceding the
current position. -/
def wordMatchAux (w : List Char) (wl : Char) (prev : Option Char) :
    List Char → Bool
  | [] => false
  | c :: rest =>
      (leadsWith w (c :: rest) && boundaryB prev (some c)
        && boundaryB (some wl) ((c :: rest).get? w.length))
      || wordMatchAux w wl (some c) rest

/-- JS `/\b w \b/.test s` for a literal alternative `w`. -/
def testWordB (w s : String) : Bool :=
  match w.data.getLast? with
  | none => true
  | some wl => wordMatchAux w.data wl none s.data

/-- Collapse every run of whitespace to a single space
(JS `.replace(/\s+/g, ' ')`); the `Bool` records whether the previous
character was whitespace. -/
def collapseWsAux : Bool → List Char → List Char
  | _, [] => []
  | prevWs, c :: rest =>
      if jsIsWs c then
        if prevWs then collapseWsAux true rest
        else ' ' :: collapseWsAux true rest
      else c :: collapseWsAux false rest

/-- JS `String.prototype.trim` (on the whitespace set above). -/
def jsTrimL (l : List Char) : List Char :=
  ((l.dropWhile jsIsWs).reverse.dropWhile jsIsWs).reverse

/-- JS `String.prototype.trim`. -/
def jsTrimStr (s : String) : String :=
  String.mk (jsTrimL s.data)

/-- JS `parseInt` in base 10: skip leading whitespace, optional sign,
then the longest digit run; no digits means `NaN`, modelled as `none`. -/
def jsParseInt (s : String) : Option Int :=
  let l := s.data.dropWhile jsIsWs
  let (sign, l2) : Int × List Char :=
    match l with
    | '-' :: t => (-1, t)
    | '+' :: t => (1, t)
    | t => (1, t)
  let ds := l2.takeWhile Char.isDigit
  if ds.isEmpty then none
  else some (sign * (ds.foldl (fun acc c => acc * 10 + (c.toNat - '0'.toNat)) 0 : Nat))

/-- JS `a || b` for two string-valued operands (empty string is falsy). -/
def jsOrStr (a b : String) : String :=
  if a ≠ "" then a else b

/-- Truthiness of a possibly-undefined string. -/
def jsTruthyStr : Option String → Bool
  | some s => s ≠ ""
  | none => false

/-- Truthiness of a possibly-NaN number (`0` and `NaN` are falsy). -/
def jsTruthyInt : Option Int → Bool
  | some n => n ≠ 0
  | none => false

/-- JS `a || b` on possibly-undefined strings, keeping undefinedness. -/
def jsOrOpt (a b : Option String) : Option String :=
  if jsTruthyStr a then a else b

/-- JS `x || d` for an optional string with a literal default. -/
def jsOrDefault (o : Option String) (d : String) : String :=
  match o with
  | some s => jsOrStr s d
  | none => d

/-- Render a possibly-undefined string inside a template literal
(JS prints `undefined`). -/
def jsShow : Option String → String
  | some s => s
  | none => "undefined"

/-! ## PhoneUtils (`BotEngine.ts`, `PhoneUtils.normalize`)

```js
static normalize(phone: string): string {
  let normalized = phone.replace(/[^\d+]/g, '');
  if (normalized.startsWith('8')) {
    normalized = '+7' + normalized.substring(1);
  } else if (normalized.startsWith('7') && normalized.length === 11) {
    normalized = '+' + normalized;
  } else if (!normalized.startsWith('+') && normalized.length === 10) {
    normalized = '+7' + normalized;
  }
  return normalized;
}
```
-/

/-- `phone.replace(/[^\d+]/g, '')`: keep only digits and `+`. -/
def stripNonPhone (l : List Char) : List Char :=
  l.filter (fun c => c.isDigit || c = '+')

/-- The branch cascade of `PhoneUtils.normalize` after the strip. -/
def phoneNormalizeCore (t : List Char) : List Char :=
  if t.head? = some '8' then '+' :: '7' :: t.tail
  else if t.head? = some '7' ∧ t.length = 11 then '+' :: t
  else if t.head? ≠ some '+' ∧ t.length = 10 then '+' :: '7' :: t
  else t

/-- `PhoneUtils.normalize`. -/
def phoneNormalize (s : String) : String :=
  String.mk (phoneNormalizeCore (stripNonPhone s.data))

theorem stripNonPhone_sound (l : List Char) :
    ∀ c ∈ stripNonPhone l, c.isDigit || c = '+' := by
  intro c hc
  exact (List.mem_filter.mp hc).2

theorem stripNonPhone_of_sound {l : List Char}
    (h : ∀ c ∈ l, c.isDigit || c = '+') : stripNonPhone l = l :=
  List.filter_eq_self.mpr h

theorem phoneNormalizeCore_sound {t : List Char}
    (h : ∀ c ∈ t, c.isDigit || c = '+') :
    ∀ c ∈ phoneNormalizeCore t, c.isDigit || c = '+' := by
  unfold phoneNormalizeCore
  split
  · intro c hc
    simp only [List.mem_cons] at hc
    rcases hc with rfl | rfl | hc
    · simp
    · simp
    · exact h c (List.mem_of_mem_tail hc)
  · split
    · intro c hc
      simp only [List.mem_cons] at hc
      rcases hc with rfl | hc
      · simp
      · exact h c hc
    · split
      · intro c hc
        simp only [List.mem_cons] at hc
        rcases hc with rfl | rfl | hc
        · simp
        · simp
        · exact h c hc
      · exact h

/-- The branch cascade is idempotent: its output either starts with `+`
(when a branch fired) or is the unchanged input (when none did). -/
theorem phoneNormalizeCore_idem (t : List Char) :
    phoneNormalizeCore (phoneNormalizeCore t) = phoneNormalizeCore t := by
  unfold phoneNormalizeCore
  split
  · simp
  · split
    · simp
    · split
      · simp
      · rfl

/-- C10 — phone normalization is idempotent: for every input string
`s`, `PhoneUtils.normalize (PhoneUtils.normalize s)` equals
`PhoneUtils.normalize s`, so normalizing an already-normalized number
(including the `8` → `+7` and bare-10-digit → `+7` rewrites) leaves it
unchanged. -/
theorem C10_phone_normalize_idem (s : String) :
    phoneNormalize (phoneNormalize s) = phoneNormalize s := by
  unfold phoneNormalize
  have hstrip : stripNonPhone (phoneNormalizeCore (stripNonPhone s.data))
      = phoneNormalizeCore (stripNonPhone s.data) :=
    stripNonPhone_of_sound (phoneNormalizeCore_sound (stripNonPhone_sound s.data))
  simp [hstrip, phoneNormalizeCore_idem]

/-! ## NLP service (`NLPService.ts`) -/

/-- Result of the external ChatGPT classifier
(`ChatGPTResponse` in `NLPService.ts`; the `entities` field is omitted —
see `extractAppointmentId` below for why entities are never consulted by
the orchestrator logic under verification). -/
structure ChatResp where
  intent : String
  confidence : ℚ
  response : String
  shouldUseBuiltIn : Bool
deriving Repr, DecidableEq

/-- An intent as produced by `NLPService.detectIntent`.  The extracted
entity list is omitted: the only consumer that inspects entities is
`BotEngine.extractAppointmentId`, which searches for an entity of type
`appointment_id` that `extractEntities` (types `PHONE`, `DATE`, `TIME`,
`NAME` only) can never produce. -/
structure Intent where
  name : String
  confidence : ℚ
  chatResponse : Option String := none
  shouldUseBuiltIn : Option Bool := none
deriving Repr, DecidableEq

/-- `NLPService.normalizeText`:

```js
text.toLowerCase()
    .replace(/ё/g, 'е')
    .replace(/[^\w\s\d\.\-\+\(\)]/g, ' ')
    .replace(/\s+/g, ' ')
    .trim()
```

Note that `\w` is ASCII-only, so every Cyrillic letter falls in the
negated class and is replaced by a space. -/
def normalizeText (s : String) : String :=
  let l1 := s.data.map jsToLower
  let l2 := l1.map (fun c => if c = 'ё' then 'е' else c)
  let l3 := l2.map (fun c =>
    if isWordCh c || jsIsWs c || c.isDigit
        || c = '.' || c = '-' || c = '+' || c = '(' || c = ')'
      then c else ' ')
  String.mk (jsTrimL (collapseWsAux false l3))

/-- One regex of the pattern tables: either a `\b(w₁|w₂|…)\b`
alternation (`wordAlt`) or a plain unanchored alternation
(`substrAlt`).  `\s+` inside an alternative is written as a single
space: the patterns are only ever tested against `normalizeText`
output, in which whitespace runs are collapsed to single spaces. -/
inductive Pat
  | wordAlt (ws : List String)
  | substrAlt (ws : List String)
deriving Repr

/-- `pattern.test(text)`. -/
def testPat (s : String) : Pat → Bool
  | .wordAlt ws => ws.any (fun w => testWordB w s)
  | .substrAlt ws => ws.any (fun w => jsIncludes w s)

/-- `NLPService.initializePatterns`' intent table, in `Map` insertion
order. -/
def intentPatterns : List (String × List Pat) :=
  [ ("GREETING",
      [ .wordAlt ["привет", "здравствуй", "добрый день", "добрый вечер",
                  "добрый утро", "салам", "сәлем", "hello", "hi"],
        .substrAlt ["начать", "start"] ]),
    ("BOOK_APPOINTMENT",
      [ .wordAlt ["записаться", "запись", "прием", "appointment",
                  "записаться на прием", "хочу записаться"],
        .substrAlt ["врачу", "доктору", "стоматологу"] ]),
    ("CANCEL_APPOINTMENT",
      [ .wordAlt ["отменить", "отмена", "cancel", "перенести"],
        .substrAlt ["не смогу прийти"],
        .substrAlt ["отменить запись"] ]),
    ("GET_INFO",
      [ .wordAlt ["информация", "info", "адрес", "телефон", "контакты",
                  "где находитесь"],
        .wordAlt ["часы работы", "график", "расписание", "когда работаете"],
        .wordAlt ["услуги", "цены", "стоимость", "прайс"] ]) ]

/-- `NLPService.checkQuickPatterns`: first intent in table order with a
matching pattern (the match wins with confidence 0.9 in `detectIntent`). -/
def checkQuickPatterns (text : String) : Option String :=
  (intentPatterns.find? (fun p => p.2.any (testPat text))).map (·.1)

/-- `/\b(да|подтверждаю|confirm|yes|хорошо|согласен)\b/i`. -/
def yesPat : Pat :=
  .wordAlt ["да", "подтверждаю", "confirm", "yes", "хорошо", "согласен"]

/-- `/\b(нет|отмена|cancel|no|не\s+нужно)\b/i`. -/
def noPat : Pat :=
  .wordAlt ["нет", "отмена", "cancel", "no", "не нужно"]

/-- `/\b(стоп|отмена|выйти|quit|stop|назад)\b/i` — the in-flow override
keyword set. -/
def overridePat : Pat :=
  .wordAlt ["стоп", "отмена", "выйти", "quit", "stop", "назад"]

/-- The conversation state embedded in a chat session
(`ConversationContext` plus the extra fields of
`ExtendedConversationContext`; `startTime` is a wall-clock `Date` that
no branch inspects and is omitted, `lastMessageTime` is kept as a
presence flag). -/
structure BookingData where
  patientName : Option String := none
  patientPhone : Option String := none
  serviceType : Option String := none
  serviceDisplayName : Option String := none
  doctorId : Option Int := none
  selectedDate : Option String := none
  selectedTime : Option String := none
  selectedAppointmentId : Option Int := none
  selectedApptDisplay : Option String := none
  lastMessageTime : Bool := false
deriving Repr, DecidableEq

structure Ctx where
  flow : String := ""
  step : String := ""
  data : BookingData := {}
  retryCount : Nat := 0
  lastIntent : Option String := none
  lastResponse : Option String := none
deriving Repr, DecidableEq

/-- `NLPService.analyzeInFlow` (the `switch (context.step)` with its
fall-through to the override check and the `CONTINUE_FLOW` default);
`nt` is the already-normalized text. -/
def analyzeInFlow (nt : String) (ctx : Ctx) : Intent :=
  if ctx.step = "COLLECT_NAME" then
    { name := "PROVIDE_NAME", confidence := 0.95 }
  else if ctx.step = "COLLECT_PHONE" then
    { name := "PROVIDE_PHONE", confidence := 0.95 }
  else if ctx.step = "SELECT_SERVICE" ∨ ctx.step = "SELECT_DOCTOR"
      ∨ ctx.step = "SELECT_DATE" ∨ ctx.step = "SELECT_TIME" then
    { name := "MAKE_SELECTION", confidence := 0.95 }
  else if ctx.step = "CONFIRMATION" ∧ testPat nt yesPat then
    { name := "CONFIRM_APPOINTMENT", confidence := 0.98 }
  else if ctx.step = "CONFIRMATION" ∧ testPat nt noPat then
    { name := "CANCEL_FLOW", confidence := 0.98 }
  else if testPat nt overridePat then
    { name := "CANCEL_FLOW", confidence := 0.99 }
  else
    { name := "CONTINUE_FLOW", confidence := 0.8 }

/-- The hard-coded fallback of `analyzeWithChatGPT`'s `catch` branch. -/
def chatGPTFallback : ChatResp :=
  { intent := "UNKNOWN", confidence := 0.1,
    response := "Извините, я не совсем понял ваш вопрос. Могу помочь записаться на прием, предоставить информацию о клинике или ответить на вопросы об услугах.",
    shouldUseBuiltIn := false }

/-- `NLPService.analyzeWithChatGPT`: the whole body sits in a `try`
whose `catch` returns `chatGPTFallback`, so the function never throws;
the oracle argument carries the outcome of the HTTP call. -/
def analyzeWithChatGPT : Except Unit ChatResp → ChatResp
  | .ok r => r
  | .error _ => chatGPTFallback

/-- `NLPService.detectIntent`.  The oracle is `none` when
`OPENAI_API_KEY` is empty.  `ensureValidContext` is the identity on a
well-typed context (its `|| ''` / `|| {}` defaults only matter for the
garbled raw states handled by `parseStored` below).  The `catch` around
`analyzeWithChatGPT` in the source is unreachable because
`analyzeWithChatGPT` handles its own errors, so a configured oracle
always produces the ChatGPT-shaped result. -/
def detectIntent (text : String) (ctx : Ctx)
    (oracle : Option (Except Unit ChatResp)) : Intent :=
  let nt := normalizeText text
  if ctx.flow ≠ "" ∧ ctx.step ≠ "" then
    analyzeInFlow nt ctx
  else
    match oracle with
    | some call =>
        let g := analyzeWithChatGPT call
        { name := g.intent, confidence := g.confidence,
          chatResponse := some g.response,
          shouldUseBuiltIn := some g.shouldUseBuiltIn }
    | none =>
        match checkQuickPatterns nt with
        | some n => { name := n, confidence := 0.9 }
        | none => { name := "UNKNOWN", confidence := 0.1 }

/-! ## Flow registry and flow executor (`ConversationManager.ts`) -/

structure ResponseOption where
  oid : String
  text : String
  value : String
  description : Option String := none
deriving Repr, DecidableEq

/-- A channel-agnostic bot response.  `metadataError` models the
`metadata.error = true` flag set only by `createErrorResponse`. -/
structure BotResponse where
  rtype : String
  text : String
  options : List ResponseOption := []
  nextStep : Option String := none
  metadataError : Bool := false
deriving Repr, DecidableEq

/-- Validation rule kinds.  The source's `ValidationRule` also declares
`date`, `time` and `custom`; `date`/`time` have no case in the
`validateInput` switch (they are skipped), and no registered flow uses
them or `custom`, so only the skip behaviour matters. -/
inductive RKind
  | required
  | phone
  | date
  | time
deriving Repr, DecidableEq

structure VRule where
  rtype : RKind
  message : String
deriving Repr, DecidableEq

structure FlowStep where
  id : String
  message : String
  stepType : String
  validation : List VRule := []
  options : List ResponseOption := []
deriving Repr, DecidableEq

structure ConversationFlow where
  id : String
  name : String
  steps : List FlowStep
deriving Repr, DecidableEq

/-- The `BOOKING` flow of `initializeFlows`. -/
def bookingFlow : ConversationFlow :=
  { id := "BOOKING", name := "Запись на прием",
    steps :=
      [ { id := "COLLECT_NAME", message := "Как вас зовут?",
          stepType := "input",
          validation := [⟨.required, "Пожалуйста, укажите ваше имя"⟩] },
        { id := "COLLECT_PHONE", message := "Укажите ваш номер телефона",
          stepType := "input",
          validation := [⟨.required, "Номер телефона обязателен"⟩,
                         ⟨.phone, "Неверный формат номера телефона"⟩] },
        { id := "SELECT_SERVICE", message := "Какая услуга вас интересует?",
          stepType := "selection",
          options :=
            [ { oid := "consultation", text := "Консультация", value := "consultation" },
              { oid := "cleaning", text := "Профессиональная чистка", value := "cleaning" },
              { oid := "treatment", text := "Лечение", value := "treatment" },
              { oid := "prosthetics", text := "Протезирование", value := "prosthetics" } ] },
        { id := "SELECT_DOCTOR", message := "Выберите врача",
          stepType := "selection" },
        { id := "SELECT_DATE", message := "Выберите удобную дату",
          stepType := "selection" },
        { id := "SELECT_TIME", message := "Выберите время",
          stepType := "selection" },
        { id := "CONFIRMATION", message := "Подтвердите запись",
          stepType := "confirmation" } ] }

/-- The `CANCELLATION` flow of `initializeFlows`. -/
def cancellationFlow : ConversationFlow :=
  { id := "CANCELLATION", name := "Отмена записи",
    steps :=
      [ { id := "SELECT_APPOINTMENT", message := "Выберите запись для отмены",
          stepType := "selection" },
        { id := "CONFIRM_CANCELLATION", message := "Подтвердите отмену",
          stepType := "confirmation" } ] }

/-- The flow registry (`this.flows`), in `Map` insertion order. -/
def flowsTable : List (String × ConversationFlow) :=
  [("BOOKING", bookingFlow), ("CANCELLATION", cancellationFlow)]

/-- `this.flows.get(flowId)`. -/
def getFlow (flowId : String) : Option ConversationFlow :=
  (flowsTable.find? (fun p => p.1 == flowId)).map (·.2)

/-- The phone shape test of `validateInput`:
`/^\+?[7-8][\d\s\-\(\)]{10,}$/.test(input.replace(/\s/g, ''))`. -/
def phoneShapeOk (input : String) : Bool :=
  let l := input.data.filter (fun c => ¬ jsIsWs c)
  let l2 := match l with
    | '+' :: t => t
    | t => t
  match l2 with
  | [] => false
  | c :: t =>
      (c = '7' || c = '8') && decide (10 ≤ t.length)
        && t.all (fun d => d.isDigit || jsIsWs d || d = '-' || d = '(' || d = ')')

structure VResult where
  valid : Bool
  message : Option String := none
deriving Repr, DecidableEq

/-- The rule loop of `ConversationManager.validateInput`, short-circuiting
on the first failing rule. -/
def vGo (input : String) : List VRule → VResult
  | [] => { valid := true }
  | r :: rest =>
      match r.rtype with
      | .required =>
          if jsTrimStr input = "" then { valid := false, message := some r.message }
          else vGo input rest
      | .phone =>
          if ¬ phoneShapeOk input then { valid := false, message := some r.message }
          else vGo input rest
      | _ => vGo input rest

/-- `ConversationManager.validateInput` (an absent `validation` list is
the empty list). -/
def validateInput (input : String) (st : FlowStep) : VResult :=
  vGo input st.validation

structure Doctor where
  id : Int
  name : String
  specialization : String
  services : List String := []
deriving Repr, DecidableEq

/-- A row of the `appointments` table as read by the cancellation
queries (`id`, date, service, joined doctor name). -/
structure Appt where
  id : Int
  dateStr : String
  serviceType : String
  doctorName : String
deriving Repr, DecidableEq

/-- The database reads and external conditions of one turn. -/
structure Env where
  clinicName : String := "Белый зуб"
  clinicPhone : Option String := none
  clinicAddress : Option String := none
  patientName : Option String := none
  doctors : List Doctor := []
  dates : List String := []
  appointments : List Appt := []
  nextApptId : Nat := 1
  rateCount : Nat := 1
  oracle : Option (Except Unit ChatResp) := none

/-- Result of one handler invocation: the (possibly mutated) session
context, the response, the `session_data` writes performed, and the
number of appointment rows inserted. -/
structure HR where
  ctx : Ctx
  resp : BotResponse
  writes : List Ctx := []
  appts : Nat := 0

/-- `Intl.DateTimeFormat` rendering is locale- and timezone-dependent
and no claim depends on it; modelled as the identity on the date string
(`formatDateOption` keeps its explicit empty-string guard). -/
def formatDate (s : String) : String := s

def formatDateOption (dateString : String) : String :=
  if dateString = "" then "Дата не указана" else dateString

/-- The `serviceNames` record of `saveStepData`. -/
def serviceNames : List (String × String) :=
  [ ("consultation", "Консультация"),
    ("cleaning", "Профессиональная чистка"),
    ("treatment", "Лечение"),
    ("prosthetics", "Протезирование") ]

/-- `ConversationManager.saveStepData`: updates `context.data` according
to the current step (the `UPDATE patients ...` queries touch the
patients table, not session state) and returns the context that the
method then writes to `chat_sessions`. -/
def saveStepData (ctx : Ctx) (st : FlowStep) (input : String) : Ctx :=
  let d := ctx.data
  if st.id = "COLLECT_NAME" then
    { ctx with data := { d with patientName := some (jsTrimStr input) } }
  else if st.id = "COLLECT_PHONE" then
    { ctx with data := { d with patientPhone := some (jsTrimStr input) } }
  else if st.id = "SELECT_SERVICE" then
    { ctx with data := { d with
        serviceType := some input,
        serviceDisplayName :=
          some ((((serviceNames.find? (fun p => p.1 == input))).map (·.2)).getD input) } }
  else if st.id = "SELECT_DOCTOR" then
    { ctx with data := { d with doctorId := jsParseInt input } }
  else if st.id = "SELECT_DATE" then
    { ctx with data := { d with selectedDate := some input } }
  else if st.id = "SELECT_TIME" then
    { ctx with data := { d with selectedTime := some input } }
  else ctx

/-- `ConversationManager.getNextStepId`: the step after the current one
in the flow's ordered list (`None` = flow completed).  The caller always
passes a step found in `fl.steps`, for which `findIdx` agrees with JS
`findIndex`. -/
def getNextStepId (fl : ConversationFlow) (cur : FlowStep) : Option String :=
  (fl.steps.get? (fl.steps.findIdx (fun s => s.id == cur.id) + 1)).map (·.id)

/-- `ConversationManager.getAvailableDoctors`: filter by service when a
service is selected, falling back to the unfiltered list when the
filter yields no doctor. -/
def getAvailableDoctors (env : Env) (serviceType : Option String) : List Doctor :=
  if jsTruthyStr serviceType then
    let filtered := env.doctors.filter (fun d => d.services.contains (jsShow serviceType))
    if filtered.isEmpty then env.doctors else filtered
  else env.doctors

/-- `ConversationManager.getAvailableTimes` (a fixed list in the source). -/
def availableTimes : List String :=
  ["09:00", "10:00", "11:00", "14:00", "15:00", "16:00", "17:00"]

/-- `ConversationManager.generateConfirmationMessage`. -/
def generateConfirmationMessage (ctx : Ctx) (env : Env) : BotResponse :=
  let d := ctx.data
  let displayService := jsShow (jsOrOpt d.serviceDisplayName
    (jsOrOpt d.serviceType (some "Не указана")))
  { rtype := "keyboard",
    text := "📋 Подтвердите запись:\n\n👤 Пациент: " ++ jsShow d.patientName
      ++ "\n🏥 Клиника: " ++ env.clinicName
      ++ "\n🦷 Услуга: " ++ displayService
      ++ "\n📅 Дата: " ++ formatDateOption (jsShow (jsOrOpt d.selectedDate (some "")))
      ++ "\n⏰ Время: " ++ jsShow d.selectedTime
      ++ "\n\nВсе верно?",
    options :=
      [ { oid := "confirm", text := "✅ Подтвердить", value := "confirm" },
        { oid := "cancel", text := "❌ Отменить", value := "cancel" } ],
    nextStep := some "CONFIRMATION" }

/-- `ConversationManager.completeBooking`: on complete data, one
`INSERT INTO appointments` and a reset of `flow`/`step`/`data`; on
missing data, an error text with no state change. -/
def completeBooking (ctx : Ctx) (env : Env) : HR :=
  let d := ctx.data
  if ¬ (jsTruthyInt d.doctorId && jsTruthyStr d.selectedDate
        && jsTruthyStr d.selectedTime && jsTruthyStr d.serviceType) then
    { ctx := ctx,
      resp := { rtype := "text",
                text := "❌ Не хватает данных для создания записи. Попробуйте начать заново." } }
  else
    let serviceToSave := jsShow (jsOrOpt d.serviceDisplayName d.serviceType)
    let c := { ctx with flow := "", step := "", data := {} }
    { ctx := c,
      resp := { rtype := "text",
                text := "✅ Запись успешно создана!\n\n📋 Номер записи: "
                  ++ toString env.nextApptId
                  ++ "\n🦷 Услуга: " ++ serviceToSave
                  ++ "\n📅 Дата: " ++ formatDateOption (jsShow (jsOrOpt d.selectedDate (some "")))
                  ++ " в " ++ jsShow d.selectedTime
                  ++ "\n\nМы отправим вам напоминание за день до приема.\nЕсли планы изменятся, сообщите нам заранее." },
      writes := [c], appts := 1 }

/-- `ConversationManager.generateCancellationConfirmation`. -/
def generateCancellationConfirmation (ctx : Ctx) (env : Env) : BotResponse :=
  { rtype := "keyboard",
    text := "❌ Подтвердите отмену записи:\n\n📋 Запись: "
      ++ jsShow (jsOrOpt ctx.data.selectedApptDisplay (some "Не указана"))
      ++ "\n🏥 Клиника: " ++ env.clinicName
      ++ "\n\n⚠️ Отменить эту запись?",
    options :=
      [ { oid := "confirm_cancel", text := "✅ Да, отменить", value := "confirm_cancel" },
        { oid := "keep", text := "❌ Нет, оставить", value := "keep_appointment" } ],
    nextStep := some "CONFIRM_CANCELLATION" }

/-- `ConversationManager.completeCancellation`: an
`UPDATE appointments SET status = 'cancelled'` (no insertion), then a
context reset when a row matched. -/
def completeCancellation (ctx : Ctx) (env : Env) : HR :=
  match env.appointments.find? (fun a => some a.id == ctx.data.selectedAppointmentId) with
  | none =>
      { ctx := ctx,
        resp := { rtype := "text",
                  text := "❌ Не удалось отменить запись. Возможно, она уже была отменена." } }
  | some apt =>
      let c := { ctx with flow := "", step := "", data := {} }
      { ctx := c,
        resp := { rtype := "text",
                  text := "✅ Запись успешно отменена!\n\n📋 Номер записи: "
                    ++ toString apt.id
                    ++ "\n📅 Дата: " ++ formatDate apt.dateStr
                    ++ "\n🦷 Услуга: " ++ apt.serviceType
                    ++ "\n\nЕсли захотите записаться снова, напишите \"привет\"." },
        writes := [c] }

/-- `ConversationManager.handleCancellationFlowStep`. -/
def handleCancellationFlowStep (ctx : Ctx) (input : String) (env : Env) : HR :=
  if ctx.step = "SELECT_APPOINTMENT" then
    if input = "back_to_menu" then
      let c := { ctx with flow := "", step := "", data := {} }
      { ctx := c,
        resp := { rtype := "text",
                  text := "Вы вернулись в главное меню. Напишите \"привет\" для продолжения." },
        writes := [c] }
    else
      match jsParseInt input with
      | none =>
          { ctx := ctx,
            resp := { rtype := "text", text := "Пожалуйста, выберите запись из списка." } }
      | some n =>
          match env.appointments.find? (fun a => a.id == n) with
          | none =>
              { ctx := ctx,
                resp := { rtype := "text",
                          text := "Запись не найдена. Попробуйте выбрать из списка." } }
          | some apt =>
              let c := { ctx with
                step := "CONFIRM_CANCELLATION",
                data := { selectedAppointmentId := some n,
                          selectedApptDisplay :=
                            some (formatDate apt.dateStr ++ " - " ++ apt.doctorName
                              ++ " (" ++ apt.serviceType ++ ")") } }
              { ctx := c, resp := generateCancellationConfirmation c env, writes := [c] }
  else if ctx.step = "CONFIRM_CANCELLATION" then
    if input = "confirm_cancel" then completeCancellation ctx env
    else if input = "keep_appointment" then
      let c := { ctx with flow := "", step := "", data := {} }
      { ctx := c,
        resp := { rtype := "text",
                  text := "✅ Запись сохранена. Ждем вас в назначенное время!\n\nНапишите \"привет\" для возврата в главное меню." },
        writes := [c] }
    else
      { ctx := ctx,
        resp := { rtype := "text",
                  text := "Пожалуйста, выберите \"Да, отменить\" или \"Нет, оставить\"." } }
  else
    { ctx := ctx,
      resp := { rtype := "text",
                text := "Произошла ошибка в процессе отмены. Попробуйте снова." } }

/-- `ConversationManager.executeFlowStep`: records the new current step
in the session, then renders the step's prompt. -/
def executeFlowStep (ctx : Ctx) (stepId : String) (env : Env) : HR :=
  match (getFlow ctx.flow).bind (fun f => f.steps.find? (fun s => s.id == stepId)) with
  | none =>
      { ctx := ctx,
        resp := { rtype := "text", text := "Произошла ошибка. Начните сначала." } }
  | some st =>
      let c := { ctx with step := stepId }
      if st.id = "COLLECT_NAME" ∨ st.id = "COLLECT_PHONE" then
        { ctx := c,
          resp := { rtype := "text", text := st.message, nextStep := some st.id },
          writes := [c] }
      else if st.id = "SELECT_SERVICE" then
        { ctx := c,
          resp := { rtype := "keyboard", text := st.message, options := st.options,
                    nextStep := some st.id },
          writes := [c] }
      else if st.id = "SELECT_DOCTOR" then
        let ds := getAvailableDoctors env c.data.serviceType
        { ctx := c,
          resp := { rtype := "keyboard", text := st.message,
                    options := ds.map (fun d =>
                      { oid := toString d.id, text := d.name, value := toString d.id,
                        description := some d.specialization }),
                    nextStep := some st.id },
          writes := [c] }
      else if st.id = "SELECT_DATE" then
        { ctx := c,
          resp := { rtype := "keyboard", text := st.message,
                    options := env.dates.map (fun dt =>
                      { oid := dt, text := formatDateOption dt, value := dt }),
                    nextStep := some st.id },
          writes := [c] }
      else if st.id = "SELECT_TIME" then
        { ctx := c,
          resp := { rtype := "keyboard", text := st.message,
                    options := availableTimes.map (fun t =>
                      { oid := t, text := t, value := t }),
                    nextStep := some st.id },
          writes := [c] }
      else if st.id = "CONFIRMATION" then
        { ctx := c, resp := generateConfirmationMessage c env, writes := [c] }
      else
        { ctx := c,
          resp := { rtype := "text", text := "Произошла ошибка. Начните сначала." },
          writes := [c] }

/-- `ConversationManager.handleCurrentFlow`. -/
def handleCurrentFlow (ctx : Ctx) (input : String) (env : Env) : HR :=
  if ctx.flow = "" ∨ ctx.step = "" then
    { ctx := ctx,
      resp := { rtype := "text",
                text := "Не понимаю. Попробуйте начать сначала, написав \"привет\"." } }
  else if ctx.flow = "CANCELLATION" then
    handleCancellationFlowStep ctx input env
  else
    match getFlow ctx.flow with
    | none =>
        let c := { ctx with flow := "", step := "" }
        { ctx := c,
          resp := { rtype := "text", text := "Произошла ошибка. Начните сначала." },
          writes := [c] }
    | some fl =>
        match fl.steps.find? (fun s => s.id == ctx.step) with
        | none =>
            let c := { ctx with flow := "", step := "" }
            { ctx := c,
              resp := { rtype := "text",
                        text := "Произошла ошибка в диалоге. Начните сначала." },
              writes := [c] }
        | some cur =>
            if ctx.step = "CONFIRMATION" then
              if input = "confirm" then completeBooking ctx env
              else if input = "cancel" then
                let c := { ctx with flow := "", step := "", data := {} }
                { ctx := c,
                  resp := { rtype := "text",
                            text := "❌ Запись отменена. Если захотите записаться снова, напишите \"привет\"." },
                  writes := [c] }
              else
                { ctx := ctx,
                  resp := { rtype := "text",
                            text := "Пожалуйста, выберите \"Подтвердить\" или \"Отменить\"." } }
            else
              let v := validateInput input cur
              if v.valid = false then
                { ctx := ctx,
                  resp := { rtype := "text",
                            text := jsOrDefault v.message
                              "Неверный ввод. Попробуйте снова." } }
              else
                let c1 := saveStepData ctx cur input
                match getNextStepId fl cur with
                | none =>
                    let hr := completeBooking c1 env
                    { hr with writes := c1 :: hr.writes }
                | some nid =>
                    let hr := executeFlowStep c1 nid env
                    { hr with writes := c1 :: hr.writes }

/-- `ConversationManager.handleBookingFlow`: set `flow`/`step`, persist
immediately, then render the first step. -/
def handleBookingFlow (ctx : Ctx) (env : Env) : HR :=
  let c := { ctx with flow := "BOOKING", step := "COLLECT_NAME" }
  let hr := executeFlowStep c "COLLECT_NAME" env
  { hr with writes := c :: hr.writes }

/-- `ConversationManager.showAppointmentsForCancellation`. -/
def showAppointmentsForCancellation (ctx : Ctx) (env : Env) : HR :=
  if env.appointments.isEmpty then
    let c := { ctx with flow := "", step := "", data := {} }
    { ctx := c,
      resp := { rtype := "text",
                text := "📅 У вас нет активных записей для отмены.\n\nМожете записаться на новый прием, написав \"привет\"." },
      writes := [c] }
  else
    { ctx := ctx,
      resp := { rtype := "list",
                text := "📋 Ваши активные записи:\n\nВыберите запись для отмены:",
                options := (env.appointments.map (fun a =>
                  { oid := toString a.id,
                    text := formatDate a.dateStr ++ " - " ++ a.doctorName,
                    value := toString a.id,
                    description := some a.serviceType }))
                  ++ [{ oid := "back", text := "🔙 Назад в главное меню",
                        value := "back_to_menu" }] } }

/-- `ConversationManager.executeCancellationStep`. -/
def executeCancellationStep (ctx : Ctx) (stepId : String) (env : Env) : HR :=
  let c := { ctx with step := stepId }
  let hr :=
    if stepId = "SELECT_APPOINTMENT" then showAppointmentsForCancellation c env
    else if stepId = "CONFIRM_CANCELLATION" then
      { ctx := c, resp := generateCancellationConfirmation c env }
    else
      { ctx := c,
        resp := { rtype := "text", text := "Произошла ошибка. Начните сначала." } }
  { hr with writes := c :: hr.writes }

/-- `ConversationManager.handleCancellationFlow` (flow start; not
reachable from the verified `handleIntent`, which routes
`CANCEL_APPOINTMENT` to the engine's own appointment listing, but part
of the manager's surface). -/
def handleCancellationFlow (ctx : Ctx) (env : Env) : HR :=
  let c := { ctx with flow := "CANCELLATION", step := "SELECT_APPOINTMENT" }
  let hr := executeCancellationStep c "SELECT_APPOINTMENT" env
  { hr with writes := c :: hr.writes }

/-! ## Dialogue orchestrator (`BotEngine.ts`, first class in the file) -/

/-- A normalized inbound message (`IncomingMessage` fields the engine
branches on). -/
structure Msg where
  text : String
  isButton : Bool := false
  buttonData : Option String := none
deriving Repr, DecidableEq

/-- The raw `session_data` column as loaded by `getOrCreateSession`:
either a well-formed object or something garbled (`null`, a
non-object, or an unparsable JSON string — all of which the source's
`typeof`/`JSON.parse` guards map to the default state). -/
inductive RawStored
  | notObject
  | obj (c : Ctx)

/-- The parse/repair logic of `getOrCreateSession`
(`createDefaultSessionData` on anything that is not an object). -/
def parseStored : RawStored → Ctx
  | .notObject => {}
  | .obj c => c

/-- `BotEngine.createErrorResponse`. -/
def createErrorResponse (m : String) : BotResponse :=
  { rtype := "text", text := "❌ " ++ m, metadataError := true }

/-- `BotEngine.extractAppointmentId`: searches the intent's entities for
one of type `appointment_id`; `NLPService.extractEntities` only ever
produces `PHONE`/`DATE`/`TIME`/`NAME` entities, so the search always
fails. -/
def extractAppointmentId (_i : Intent) : Option Int := none

/-- `message.isButton || message.buttonData` (truthiness). -/
def jsBtn (m : Msg) : Bool :=
  m.isButton || jsTruthyStr m.buttonData

/-- `message.buttonData || message.text`. -/
def msgButtonValue (m : Msg) : String :=
  match m.buttonData with
  | some b => jsOrStr b m.text
  | none => m.text

/-- `BotEngine.handleGreeting` (keyboard greeting with
`nextStep: 'MAIN_MENU'`). -/
def handleGreeting (ctx : Ctx) (env : Env) : HR :=
  let greeting := match env.patientName with
    | some n => "Здравствуйте, " ++ n ++ "!"
    | none => "Здравствуйте!"
  { ctx := ctx,
    resp := { rtype := "keyboard",
              text := greeting ++ " Добро пожаловать в клинику \"" ++ env.clinicName
                ++ "\". Чем могу помочь?",
              options :=
                [ { oid := "book", text := "📅 Записаться на прием", value := "book_appointment" },
                  { oid := "info", text := "ℹ️ Информация о клинике", value := "clinic_info" },
                  { oid := "services", text := "🦷 Наши услуги", value := "services_info" },
                  { oid := "contact", text := "📞 Контакты", value := "contact_info" } ],
              nextStep := some "MAIN_MENU" } }

/-- `BotEngine.handleCancellation`: list upcoming appointments (a read
of the appointments table), no session-state change. -/
def handleCancellation (ctx : Ctx) (env : Env) : HR :=
  if env.appointments.isEmpty then
    { ctx := ctx,
      resp := { rtype := "text", text := "У вас нет активных записей для отмены." } }
  else
    { ctx := ctx,
      resp := { rtype := "list", text := "Выберите запись для отмены:",
                options := env.appointments.map (fun a =>
                  { oid := toString a.id,
                    text := formatDate a.dateStr ++ " - " ++ a.doctorName,
                    value := "cancel_" ++ toString a.id,
                    description := some a.serviceType }) } }

/-- `BotEngine.handleConfirmation` (confirm an *existing* appointment;
never completes a booking). -/
def handleConfirmation (intent : Intent) (ctx : Ctx) (env : Env) : HR :=
  match extractAppointmentId intent with
  | some aid =>
      if (env.appointments.find? (fun a => a.id == aid)).isSome then
        { ctx := ctx,
          resp := { rtype := "text",
                    text := "✅ Ваша запись подтверждена! Ждем вас в назначенное время." } }
      else
        { ctx := ctx,
          resp := { rtype := "text",
                    text := "Не удалось найти запись для подтверждения." } }
  | none =>
      { ctx := ctx,
        resp := { rtype := "text",
                  text := "Не удалось найти запись для подтверждения." } }

/-- `BotEngine.handleInfoRequest` (first version: exact `switch` on
`message.buttonData || message.text`). -/
def handleInfoRequest (ctx : Ctx) (msg : Msg) (env : Env) : HR :=
  let bv := msgButtonValue msg
  if bv = "clinic_info" then
    { ctx := ctx,
      resp := { rtype := "text",
                text := "🏥 Клиника: " ++ env.clinicName
                  ++ "\n📍 Адрес: " ++ jsOrDefault env.clinicAddress "Не указан"
                  ++ "\n📞 Телефон: " ++ jsOrDefault env.clinicPhone "Не указан"
                  ++ "\n\nМы работаем для вашего здоровья!" } }
  else if bv = "services_info" then
    { ctx := ctx,
      resp := { rtype := "text",
                text := "🦷 Наши услуги:\n\n• Консультация стоматолога\n• Профессиональная чистка зубов\n• Лечение кариеса\n• Протезирование\n• Имплантация\n• Ортодонтия\n\nДля записи нажмите \"Записаться на прием\"" } }
  else if bv = "contact_info" then
    { ctx := ctx,
      resp := { rtype := "text",
                text := "📞 Контакты:\n\nТелефон: " ++ jsOrDefault env.clinicPhone "+7 (701) 234-56-78"
                  ++ "\nАдрес: " ++ jsOrDefault env.clinicAddress "г. Алматы, ул. Абая, 123"
                  ++ "\n\n📅 Режим работы:\nПн-Пт: 09:00 - 18:00\nСб: 10:00 - 16:00\nВс: выходной" } }
  else
    { ctx := ctx,
      resp := { rtype := "text",
                text := "🏥 Клиника: " ++ env.clinicName
                  ++ "\n📍 Адрес: " ++ jsOrDefault env.clinicAddress "Не указан"
                  ++ "\n📞 Телефон: " ++ jsOrDefault env.clinicPhone "Не указан"
                  ++ "\n\nМы работаем для вашего здоровья!" } }

/-- `BotEngine.handleLanguageChange`. -/
def handleLanguageChange (ctx : Ctx) : HR :=
  { ctx := ctx,
    resp := { rtype := "keyboard",
              text := "Выберите язык / Тілді таңдаңыз / Choose language:",
              options :=
                [ { oid := "ru", text := "🇷🇺 Русский", value := "lang_ru" },
                  { oid := "kz", text := "🇰🇿 Қазақша", value := "lang_kz" },
                  { oid := "en", text := "🇺🇸 English", value := "lang_en" } ] } }

/-- `BotEngine.handleFallback` (first version): bump `retryCount` on the
session and answer with a help keyboard, or an operator hand-off text
after three retries. -/
def handleFallback (ctx : Ctx) : HR :=
  let c := { ctx with retryCount := ctx.retryCount + 1 }
  if c.retryCount > 3 then
    { ctx := c,
      resp := { rtype := "text",
                text := "😔 Извините, я не могу понять ваш запрос. Сейчас я переведу вас на нашего администратора." } }
  else
    { ctx := c,
      resp := { rtype := "keyboard",
                text := "Извините, я не понял ваш запрос. Выберите один из вариантов:",
                options :=
                  [ { oid := "book", text := "📅 Записаться на прием", value := "book_appointment" },
                    { oid := "info", text := "ℹ️ Информация", value := "clinic_info" },
                    { oid := "help", text := "❓ Помощь", value := "help" } ] } }

/-- The forced-greeting patch of `processMessage`: greeting intent, or
raw text containing `привет`/`hello`/`start` (lower-cased). -/
def forceGreeting (text : String) (i : Intent) : Intent :=
  if i.name = "GREETING"
      || jsIncludes "привет" (jsLowerStr text)
      || jsIncludes "hello" (jsLowerStr text)
      || jsIncludes "start" (jsLowerStr text) then
    { i with name := "GREETING", confidence := 0.95 }
  else i

/-- The button-payload intent overrides of `processMessage` (first
version: `book_appointment`, the three info buttons, the three language
buttons). -/
def buttonIntent (msg : Msg) (i : Intent) : Intent :=
  if jsBtn msg then
    let bv := msgButtonValue msg
    if bv = "book_appointment" then
      { i with name := "BOOK_APPOINTMENT", confidence := 0.99 }
    else if bv = "clinic_info" ∨ bv = "services_info" ∨ bv = "contact_info" then
      { i with name := "GET_INFO", confidence := 0.99 }
    else if bv = "lang_ru" ∨ bv = "lang_kz" ∨ bv = "lang_en" then
      { i with name := "CHANGE_LANGUAGE", confidence := 0.99 }
    else i
  else i

/-- The `switch (intent.name)` of `BotEngine.handleIntent` (first
version).  `FALLBACK`/`UNKNOWN` and the `default` arm have the same
body: continue an active flow, otherwise fall back. -/
def handleIntentSwitch (intent : Intent) (ctx : Ctx) (msg : Msg) (env : Env) : HR :=
  if intent.name = "GREETING" then handleGreeting ctx env
  else if intent.name = "BOOK_APPOINTMENT" then handleBookingFlow ctx env
  else if intent.name = "CANCEL_APPOINTMENT" then handleCancellation ctx env
  else if intent.name = "CONFIRM_APPOINTMENT" then handleConfirmation intent ctx env
  else if intent.name = "GET_INFO" then handleInfoRequest ctx msg env
  else if intent.name = "CHANGE_LANGUAGE" then handleLanguageChange ctx
  else if intent.name = "FALLBACK" ∨ intent.name = "UNKNOWN" then
    if ctx.flow ≠ "" ∧ ctx.step ≠ "" then handleCurrentFlow ctx msg.text env
    else handleFallback ctx
  else
    if ctx.flow ≠ "" ∧ ctx.step ≠ "" then handleCurrentFlow ctx msg.text env
    else handleFallback ctx

/-- `BotEngine.handleIntent` (first version): the confirmation-step
button special cases, then the intent switch.  The `cancel` button case
performs its own immediate `session_data` write. -/
def handleIntent (intent : Intent) (ctx : Ctx) (msg : Msg) (env : Env) : HR :=
  if jsBtn msg then
    let bv := msgButtonValue msg
    if ctx.flow = "BOOKING" ∧ ctx.step = "CONFIRMATION" ∧ bv = "confirm" then
      handleCurrentFlow ctx bv env
    else if ctx.flow = "BOOKING" ∧ ctx.step = "CONFIRMATION" ∧ bv = "cancel" then
      let c := { ctx with flow := "", step := "", data := {} }
      { ctx := c,
        resp := { rtype := "text",
                  text := "❌ Запись отменена. Если захотите записаться снова, напишите \"привет\"." },
        writes := [c] }
    else handleIntentSwitch intent ctx msg env
  else handleIntentSwitch intent ctx msg env

/-- `response.nextStep || session.sessionData.step || ''` in
`updateSession`. -/
def jsStepOr (nextStep : Option String) (st : String) : String :=
  match nextStep with
  | some s => if s ≠ "" then s else st
  | none => st

/-- The state produced and written by `BotEngine.updateSession`: the
handler's context extended with `lastIntent`/`lastResponse`, the `step`
taken from the response's `nextStep` hint when present, and a fresh
`lastMessageTime` in `data`. -/
def updateCtx (c : Ctx) (intent : Intent) (resp : BotResponse) : Ctx :=
  { c with
    lastIntent := some intent.name,
    lastResponse := some resp.rtype,
    step := jsStepOr resp.nextStep c.step,
    data := { c.data with lastMessageTime := true } }

/-- Result of one `processMessage` turn: the response, the
`session_data` value left in the store, all `session_data` writes in
order, the number of appointments inserted, and whether the NLP service
was invoked. -/
structure TurnResult where
  resp : BotResponse
  stored : Ctx
  writes : List Ctx
  appts : Nat
  classified : Bool

/-- `BotEngine.processMessage` (first version).  The clinic row is
assumed found (`env` supplies it).  `checkRateLimit` re-throws its
`Rate limit exceeded` error when the incremented per-chat counter
(`env.rateCount`) exceeds 30; the outer `catch` of `processMessage`
turns it into the generic error response before any NLP or handler
work.  Otherwise: classify, apply the forced-greeting and button-intent
patches, dispatch, and finish with the `updateSession` write. -/
def processMessage (env : Env) (raw : RawStored) (msg : Msg) : TurnResult :=
  let ctx0 := parseStored raw
  if env.rateCount > 30 then
    { resp := createErrorResponse "Произошла ошибка. Попробуйте снова.",
      stored := ctx0, writes := [], appts := 0, classified := false }
  else
    let i0 := detectIntent msg.text ctx0 env.oracle
    let i1 := forceGreeting msg.text i0
    let i2 := buttonIntent msg i1
    let h := handleIntent i2 ctx0 msg env
    let u := updateCtx h.ctx i2 h.resp
    { resp := h.resp, stored := u, writes := h.writes ++ [u],
      appts := h.appts, classified := true }

/-! ## Structural lemmas

Bookkeeping facts used by the claim theorems: which handlers can insert
an appointment (only `completeBooking` on its success path), that a
successful completion resets `flow`/`step` and returns no `nextStep`
hint, that no handler produces an error-flagged response (only the
rate-limit short circuit does), and that every non-throttled turn ends
with the `updateSession` write.
-/

theorem executeFlowStep_appts (ctx : Ctx) (stepId : String) (env : Env) :
    (executeFlowStep ctx stepId env).appts = 0 := by
  unfold executeFlowStep
  split
  · rfl
  · split_ifs <;> rfl

theorem completeBooking_appts_pos {ctx : Ctx} {env : Env}
    (h : (completeBooking ctx env).appts ≠ 0) :
    (completeBooking ctx env).ctx.flow = "" ∧ (completeBooking ctx env).ctx.step = ""
      ∧ (completeBooking ctx env).resp.nextStep = none := by
  simp only [completeBooking] at h ⊢
  split_ifs at h ⊢ <;> simp_all

theorem completeCancellation_appts (ctx : Ctx) (env : Env) :
    (completeCancellation ctx env).appts = 0 := by
  unfold completeCancellation
  split <;> rfl

theorem handleCancellationFlowStep_appts (ctx : Ctx) (input : String) (env : Env) :
    (handleCancellationFlowStep ctx input env).appts = 0 := by
  unfold handleCancellationFlowStep
  split_ifs <;> first
    | rfl
    | (split <;> first | rfl | (split <;> rfl))
    | (exact completeCancellation_appts _ _)

theorem handleCurrentFlow_appts_pos {ctx : Ctx} {input : String} {env : Env}
    (h : (handleCurrentFlow ctx input env).appts ≠ 0) :
    (handleCurrentFlow ctx input env).ctx.flow = ""
      ∧ (handleCurrentFlow ctx input env).ctx.step = ""
      ∧ (handleCurrentFlow ctx input env).resp.nextStep = none := by
  unfold handleCurrentFlow at h ⊢
  split_ifs at h ⊢ <;>
    first
    | exact absurd rfl h
    | exact absurd (handleCancellationFlowStep_appts _ _ _) h
    | exact completeBooking_appts_pos h
    | (revert h
       split <;> intro h <;> (try dsimp only at h ⊢) <;>
         first
         | exact absurd rfl h
         | exact completeBooking_appts_pos h
         | (revert h
            split <;> intro h <;> (try dsimp only at h ⊢) <;>
              first
              | exact absurd rfl h
              | exact completeBooking_appts_pos h
              | (revert h
                 split_ifs <;> intro h <;> (try dsimp only at h ⊢) <;>
                   first
                   | exact absurd rfl h
                   | exact completeBooking_appts_pos h
                   | (revert h
                      split <;> intro h <;> (try dsimp only at h ⊢) <;>
                        first
                        | exact absurd rfl h
                        | exact completeBooking_appts_pos h
                        | exact absurd (executeFlowStep_appts _ _ _) h))))

theorem handleBookingFlow_appts (ctx : Ctx) (env : Env) :
    (handleBookingFlow ctx env).appts = 0 := by
  unfold handleBookingFlow
  dsimp only
  exact executeFlowStep_appts _ _ _

theorem handleGreeting_appts (ctx : Ctx) (env : Env) :
    (handleGreeting ctx env).appts = 0 := rfl

theorem handleCancellation_appts (ctx : Ctx) (env : Env) :
    (handleCancellation ctx env).appts = 0 := by
  unfold handleCancellation
  split_ifs <;> rfl

theorem handleConfirmation_appts (intent : Intent) (ctx : Ctx) (env : Env) :
    (handleConfirmation intent ctx env).appts = 0 := by
  unfold handleConfirmation
  split <;> first | rfl | (split_ifs <;> rfl)

theorem handleInfoRequest_appts (ctx : Ctx) (msg : Msg) (env : Env) :
    (handleInfoRequest ctx msg env).appts = 0 := by
  unfold handleInfoRequest
  dsimp only
  split_ifs <;> rfl

theorem handleLanguageChange_appts (ctx : Ctx) :
    (handleLanguageChange ctx).appts = 0 := rfl

theorem handleFallback_appts (ctx : Ctx) :
    (handleFallback ctx).appts = 0 := by
  unfold handleFallback
  dsimp only
  split_ifs <;> rfl

theorem handleIntentSwitch_appts_pos {intent : Intent} {ctx : Ctx} {msg : Msg} {env : Env}
    (h : (handleIntentSwitch intent ctx msg env).appts ≠ 0) :
    (handleIntentSwitch intent ctx msg env).ctx.flow = ""
      ∧ (handleIntentSwitch intent ctx msg env).ctx.step = ""
      ∧ (handleIntentSwitch intent ctx msg env).resp.nextStep = none := by
  unfold handleIntentSwitch at h ⊢
  split_ifs at h ⊢ <;>
    first
    | exact absurd rfl h
    | exact absurd (handleBookingFlow_appts _ _) h
    | exact handleCurrentFlow_appts_pos h
    | exact absurd (handleGreeting_appts _ _) h
    | exact absurd (handleCancellation_appts _ _) h
    | exact absurd (handleConfirmation_appts _ _ _) h
    | exact absurd (handleInfoRequest_appts _ _ _) h
    | exact absurd (handleLanguageChange_appts _) h
    | exact absurd (handleFallback_appts _) h

theorem handleIntent_appts_pos {intent : Intent} {ctx : Ctx} {msg : Msg} {env : Env}
    (h : (handleIntent intent ctx msg env).appts ≠ 0) :
    (handleIntent intent ctx msg env).ctx.flow = ""
      ∧ (handleIntent intent ctx msg env).ctx.step = ""
      ∧ (handleIntent intent ctx msg env).resp.nextStep = none := by
  unfold handleIntent at h ⊢
  dsimp only at h ⊢
  split_ifs at h ⊢ <;>
    first
    | exact absurd rfl h
    | exact handleCurrentFlow_appts_pos h
    | exact handleIntentSwitch_appts_pos h

-- flow-empty side
theorem handleCurrentFlow_flow_empty {ctx : Ctx} {input : String} {env : Env}
    (hf : ctx.flow = "") : (handleCurrentFlow ctx input env).appts = 0 := by
  unfold handleCurrentFlow
  rw [if_pos (Or.inl hf)]

theorem handleIntentSwitch_flow_empty {intent : Intent} {ctx : Ctx} {msg : Msg} {env : Env}
    (hf : ctx.flow = "") : (handleIntentSwitch intent ctx msg env).appts = 0 := by
  unfold handleIntentSwitch
  split_ifs with h1 h2 h3 h4 h5 h6 h7 h8 h9 <;>
    first
    | rfl
    | exact handleBookingFlow_appts _ _
    | exact handleCurrentFlow_flow_empty hf
    | exact handleGreeting_appts _ _
    | exact handleCancellation_appts _ _
    | exact handleConfirmation_appts _ _ _
    | exact handleInfoRequest_appts _ _ _
    | exact handleLanguageChange_appts _
    | exact handleFallback_appts _

theorem handleIntent_flow_empty {intent : Intent} {ctx : Ctx} {msg : Msg} {env : Env}
    (hf : ctx.flow = "") : (handleIntent intent ctx msg env).appts = 0 := by
  unfold handleIntent
  dsimp only
  split_ifs <;>
    first
    | rfl
    | exact handleCurrentFlow_flow_empty hf
    | exact handleIntentSwitch_flow_empty hf

theorem processMessage_appts_pos {env : Env} {raw : RawStored} {msg : Msg}
    (h : (processMessage env raw msg).appts ≠ 0) :
    (processMessage env raw msg).stored.flow = ""
      ∧ (processMessage env raw msg).stored.step = "" := by
  unfold processMessage at h ⊢
  dsimp only at h ⊢
  split_ifs at h ⊢
  · exact absurd rfl h
  · obtain ⟨h1, h2, h3⟩ := handleIntent_appts_pos h
    refine ⟨?_, ?_⟩
    · simpa [updateCtx] using h1
    · simp [updateCtx, h3, jsStepOr, h2]

theorem processMessage_flow_empty {env : Env} {raw : RawStored} {msg : Msg}
    (hf : (parseStored raw).flow = "") :
    (processMessage env raw msg).appts = 0 := by
  unfold processMessage
  dsimp only
  split_ifs
  · rfl
  · exact handleIntent_flow_empty hf

-- error-flag lemmas
theorem executeFlowStep_noerror (ctx : Ctx) (stepId : String) (env : Env) :
    (executeFlowStep ctx stepId env).resp.metadataError = false := by
  unfold executeFlowStep
  split
  · rfl
  · split_ifs <;> rfl

theorem completeBooking_noerror (ctx : Ctx) (env : Env) :
    (completeBooking ctx env).resp.metadataError = false := by
  simp only [completeBooking]
  split_ifs <;> rfl

theorem completeCancellation_noerror (ctx : Ctx) (env : Env) :
    (completeCancellation ctx env).resp.metadataError = false := by
  unfold completeCancellation
  split <;> rfl

theorem handleCancellationFlowStep_noerror (ctx : Ctx) (input : String) (env : Env) :
    (handleCancellationFlowStep ctx input env).resp.metadataError = false := by
  unfold handleCancellationFlowStep
  split_ifs <;> first
    | rfl
    | (split <;> first | rfl | (split <;> rfl))
    | (exact completeCancellation_noerror _ _)

theorem handleCurrentFlow_noerror (ctx : Ctx) (input : String) (env : Env) :
    (handleCurrentFlow ctx input env).resp.metadataError = false := by
  unfold handleCurrentFlow
  split_ifs <;>
    first
    | rfl
    | exact handleCancellationFlowStep_noerror _ _ _
    | exact completeBooking_noerror _ _
    | (split <;>
         first
         | rfl
         | exact completeBooking_noerror _ _
         | (split <;> (try dsimp only) <;>
              first
              | rfl
              | exact completeBooking_noerror _ _
              | (split_ifs <;> (try dsimp only) <;>
                   first
                   | rfl
                   | exact completeBooking_noerror _ _
                   | (split <;> (try dsimp only) <;>
                        first
                        | rfl
                        | exact completeBooking_noerror _ _
                        | exact executeFlowStep_noerror _ _ _))))

theorem handleBookingFlow_noerror (ctx : Ctx) (env : Env) :
    (handleBookingFlow ctx env).resp.metadataError = false := by
  unfold handleBookingFlow
  dsimp only
  exact executeFlowStep_noerror _ _ _

theorem handleGreeting_noerror (ctx : Ctx) (env : Env) :
    (handleGreeting ctx env).resp.metadataError = false := rfl

theorem handleCancellation_noerror (ctx : Ctx) (env : Env) :
    (handleCancellation ctx env).resp.metadataError = false := by
  unfold handleCancellation
  split_ifs <;> rfl

theorem handleConfirmation_noerror (intent : Intent) (ctx : Ctx) (env : Env) :
    (handleConfirmation intent ctx env).resp.metadataError = false := by
  unfold handleConfirmation
  split <;> first | rfl | (split_ifs <;> rfl)

theorem handleInfoRequest_noerror (ctx : Ctx) (msg : Msg) (env : Env) :
    (handleInfoRequest ctx msg env).resp.metadataError = false := by
  unfold handleInfoRequest
  dsimp only
  split_ifs <;> rfl

theorem handleLanguageChange_noerror (ctx : Ctx) :
    (handleLanguageChange ctx).resp.metadataError = false := rfl

theorem handleFallback_noerror (ctx : Ctx) :
    (handleFallback ctx).resp.metadataError = false := by
  unfold handleFallback
  dsimp only
  split_ifs <;> rfl

theorem handleIntentSwitch_noerror (intent : Intent) (ctx : Ctx) (msg : Msg) (env : Env) :
    (handleIntentSwitch intent ctx msg env).resp.metadataError = false := by
  unfold handleIntentSwitch
  split_ifs <;>
    first
    | exact handleGreeting_noerror _ _
    | exact handleBookingFlow_noerror _ _
    | exact handleCancellation_noerror _ _
    | exact handleConfirmation_noerror _ _ _
    | exact handleInfoRequest_noerror _ _ _
    | exact handleLanguageChange_noerror _
    | exact handleCurrentFlow_noerror _ _ _
    | exact handleFallback_noerror _

theorem handleIntent_noerror (intent : Intent) (ctx : Ctx) (msg : Msg) (env : Env) :
    (handleIntent intent ctx msg env).resp.metadataError = false := by
  unfold handleIntent
  dsimp only
  split_ifs <;>
    first
    | rfl
    | exact handleCurrentFlow_noerror _ _ _
    | exact handleIntentSwitch_noerror _ _ _ _

theorem processMessage_noerror {env : Env} {raw : RawStored} {msg : Msg}
    (hrate : env.rateCount ≤ 30) :
    (processMessage env raw msg).resp.metadataError = false := by
  unfold processMessage
  dsimp only
  split_ifs with hr
  · exact absurd hr (by omega)
  · exact handleIntent_noerror _ _ _ _

theorem processMessage_writes_ge_one {env : Env} {raw : RawStored} {msg : Msg}
    (hrate : env.rateCount ≤ 30) :
    1 ≤ (processMessage env raw msg).writes.length := by
  unfold processMessage
  dsimp only
  split_ifs with hr
  · exact absurd hr (by omega)
  · simp

/-! ## Concrete example inputs shared by the claim theorems -/

/-- A booking conversation sitting at the confirmation step with every
step's datum collected. -/
def confirmCtx : Ctx :=
  { flow := "BOOKING", step := "CONFIRMATION",
    data := { patientName := some "Иван", patientPhone := some "+77011234567",
              serviceType := some "consultation",
              serviceDisplayName := some "Консультация",
              doctorId := some 1, selectedDate := some "2026-10-15",
              selectedTime := some "10:00" } }

/-- The confirmation button press. -/
def confirmMsg : Msg :=
  { text := "confirm", isButton := true, buttonData := some "confirm" }

/-- The `COLLECT_PHONE` step of the booking flow (the second entry of
`bookingFlow.steps`). -/
def collectPhoneStep : FlowStep :=
  { id := "COLLECT_PHONE", message := "Укажите ваш номер телефона",
    stepType := "input",
    validation := [⟨.required, "Номер телефона обязателен"⟩,
                   ⟨.phone, "Неверный формат номера телефона"⟩] }

/-- A booking conversation waiting for the phone number. -/
def phoneCtx : Ctx :=
  { flow := "BOOKING", step := "COLLECT_PHONE",
    data := { patientName := some "Иван" } }

/-- One state a concurrent writer may try to store. -/
def ctxA : Ctx := { flow := "BOOKING", step := "COLLECT_NAME" }

/-- A different state a second concurrent writer may try to store. -/
def ctxB : Ctx := { step := "MAIN_MENU", retryCount := 1 }

/-- An external classifier configured and answering with a
conversational intent. -/
def casualOracle : Option (Except Unit ChatResp) :=
  some (.ok { intent := "CASUAL_CONVERSATION", confidence := 0.7,
              response := "Рад помочь!", shouldUseBuiltIn := false })

/-! ## Claim theorems -/

/-- C9 — exceeding the per-chat fixed-window rate limit (counter above
30 within the minute window) short-circuits the turn: the NLP service
is never invoked, no session-state write and no appointment insert
happens, and the user receives the non-fatal error-text response
produced by the `catch` of `processMessage` for the re-thrown
`Rate limit exceeded` error. -/
theorem C9_rate_limit (env : Env) (raw : RawStored) (msg : Msg)
    (h : env.rateCount > 30) :
    (processMessage env raw msg).classified = false
      ∧ (processMessage env raw msg).writes = []
      ∧ (processMessage env raw msg).appts = 0
      ∧ (processMessage env raw msg).resp
          = createErrorResponse "Произошла ошибка. Попробуйте снова." := by
  unfold processMessage
  dsimp only
  rw [if_pos h]
  exact ⟨rfl, rfl, rfl, rfl⟩

/-- Witness for `C9_rate_limit` at a concrete throttled turn. -/
theorem C9_rate_limit_witness :
    (processMessage { rateCount := 31 } (.obj phoneCtx) { text := "abc" }).classified = false
      ∧ (processMessage { rateCount := 31 } (.obj phoneCtx) { text := "abc" }).writes = []
      ∧ (processMessage { rateCount := 31 } (.obj phoneCtx) { text := "abc" }).appts = 0
      ∧ (processMessage { rateCount := 31 } (.obj phoneCtx) { text := "abc" }).resp
          = createErrorResponse "Произошла ошибка. Попробуйте снова." :=
  C9_rate_limit { rateCount := 31 } (.obj phoneCtx) { text := "abc" } (by decide)

/-- A `chat_sessions` row as touched by the session-state update: the
row id and its `session_data` column.  The table has no version column. -/
structure SessionRow where
  id : Nat
  sessionData : Ctx
deriving Repr, DecidableEq

/-- The session-state write of the source
(`UPDATE chat_sessions SET session_data = $1 WHERE id = $2`, issued by
`BotEngine.updateSession` and by the `ConversationManager` handlers):
the row is replaced whenever its id matches, and the returned flag is
whether a row matched — the only condition the statement checks.  There
is no compare-and-swap on a version, no read of the previous value, and
no lock. -/
def updateStateQuery (row : SessionRow) (sid : Nat) (newData : Ctx) :
    SessionRow × Bool :=
  if row.id = sid then ({ row with sessionData := newData }, true)
  else (row, false)

/-- C4 (counterexample) — two concurrent turns that both read the same
prior version of session 1 and then write their distinct results both
succeed: neither observes a conflict, and the second write silently
overwrites the first (lost update).  The claimed optimistic check does
not exist in the update. -/
theorem C4_counterexample :
    (updateStateQuery { id := 1, sessionData := {} } 1 ctxA).2 = true
      ∧ (updateStateQuery (updateStateQuery { id := 1, sessionData := {} } 1 ctxA).1 1 ctxB).2 = true
      ∧ (updateStateQuery (updateStateQuery { id := 1, sessionData := {} } 1 ctxA).1 1 ctxB).1.sessionData = ctxB
      ∧ ctxA ≠ ctxB := by decide

/-- C4 (amended) — the session-state update is an unconditional
last-write-wins replacement keyed only by the session id: for every
row and every new state it reports success and stores the new state,
independently of the row's current `sessionData`, so concurrent writers
from the same prior version can never observe a conflict. -/
theorem C4_amended_last_write_wins (row : SessionRow) (newData : Ctx) :
    (updateStateQuery row row.id newData).1.sessionData = newData
      ∧ (updateStateQuery row row.id newData).2 = true := by
  unfold updateStateQuery
  rw [if_pos rfl]
  exact ⟨rfl, rfl⟩

/-- C3 (counterexample) — a booking-start turn (pattern-matched
`BOOK_APPOINTMENT` on the text `appointment`) performs three
session-state writes in one turn, not one: `handleBookingFlow` persists
immediately, `executeFlowStep` persists the step change, and
`updateSession` persists again at the end of the turn. -/
theorem C3_counterexample :
    (processMessage {} (.obj {}) { text := "appointment" }).writes.length = 3
      ∧ (processMessage {} (.obj {}) { text := "appointment" }).writes.length ≠ 1 := by
  decide

/-- C3 (amended) — every non-throttled turn performs at least one
session-state write and its last write is the final `updateSession`
state, but a turn is not limited to a single write (the counterexample
turn performs three). -/
theorem C3_amended_writes (env : Env) (raw : RawStored) (msg : Msg)
    (hrate : env.rateCount ≤ 30) :
    1 ≤ (processMessage env raw msg).writes.length
      ∧ (processMessage env raw msg).writes.getLast?
          = some (processMessage env raw msg).stored := by
  unfold processMessage
  dsimp only
  split_ifs with hr
  · exact absurd hr (by omega)
  · refine ⟨by simp, ?_⟩
    rw [List.getLast?_concat]

/-- Witness for `C3_amended_writes` at a concrete turn. -/
theorem C3_amended_writes_witness :
    1 ≤ (processMessage {} (.obj {}) { text := "appointment" }).writes.length
      ∧ (processMessage {} (.obj {}) { text := "appointment" }).writes.getLast?
          = some (processMessage {} (.obj {}) { text := "appointment" }).stored :=
  C3_amended_writes {} (.obj {}) { text := "appointment" } (by decide)

/-- C1 (counterexample) — the persisted-state invariant "`step`
non-empty implies `flow` non-empty and registered" does not hold after
every handled message: a plain greeting turn on a fresh session
persists `step = 'MAIN_MENU'` (the response's `nextStep` hint, copied
into the session by `updateSession`) while `flow` stays empty, and the
empty flow names no registry entry. -/
theorem C1_counterexample :
    (processMessage {} (.obj {}) { text := "привет" }).stored.step = "MAIN_MENU"
      ∧ (processMessage {} (.obj {}) { text := "привет" }).stored.flow = ""
      ∧ getFlow (processMessage {} (.obj {}) { text := "привет" }).stored.flow = none := by
  decide

/-- C1 (amended) — the two repairs that do exist: stored session data
that is not an object is replaced by the default empty state when
loaded, and a turn routed into flow continuation whose flow names no
registry entry resets both `flow` and `step` to empty rather than
failing.  The invariant itself fails after greeting turns (see the
counterexample), whose `MAIN_MENU` step is persisted with an empty
flow. -/
theorem C1_amended_flow_repair :
    parseStored RawStored.notObject = ({} : Ctx)
      ∧ ∀ (ctx : Ctx) (input : String) (env : Env),
          ctx.flow ≠ "" → ctx.step ≠ "" →
          ctx.flow ≠ "BOOKING" → ctx.flow ≠ "CANCELLATION" →
          (handleCurrentFlow ctx input env).ctx.flow = ""
            ∧ (handleCurrentFlow ctx input env).ctx.step = "" := by
  refine ⟨rfl, ?_⟩
  intro ctx input env h1 h2 h3 h4
  have e3 : ("BOOKING" == ctx.flow) = false := beq_eq_false_iff_ne.mpr (Ne.symm h3)
  have e4 : ("CANCELLATION" == ctx.flow) = false := beq_eq_false_iff_ne.mpr (Ne.symm h4)
  have hg : getFlow ctx.flow = none := by
    simp [getFlow, flowsTable, List.find?, e3, e4]
  unfold handleCurrentFlow
  rw [if_neg (by simp [h1, h2]), if_neg h4, hg]
  exact ⟨rfl, rfl⟩

/-- Witness for `C1_amended_flow_repair` at a stale flow name. -/
theorem C1_amended_flow_repair_witness :
    (handleCurrentFlow { flow := "OLD_FLOW", step := "STEP_1" } "x" {}).ctx.flow = ""
      ∧ (handleCurrentFlow { flow := "OLD_FLOW", step := "STEP_1" } "x" {}).ctx.step = "" :=
  C1_amended_flow_repair.2 { flow := "OLD_FLOW", step := "STEP_1" } "x" {}
    (by decide) (by decide) (by decide) (by decide)

/-- C5 — flow completion is idempotent from the caller's perspective:
if a turn creates an appointment (which only the success path of
`completeBooking` can do), the persisted state has empty `flow` and
`step`, and re-delivering the same message against that persisted state
creates no second appointment. -/
theorem C5_completion_idempotent (env env2 : Env) (raw : RawStored) (msg : Msg)
    (h : 1 ≤ (processMessage env raw msg).appts) :
    (processMessage env raw msg).stored.flow = ""
      ∧ (processMessage env raw msg).stored.step = ""
      ∧ (processMessage env2 (RawStored.obj (processMessage env raw msg).stored) msg).appts
          = 0 := by
  have h0 : (processMessage env raw msg).appts ≠ 0 := by omega
  obtain ⟨h1, h2⟩ := processMessage_appts_pos h0
  exact ⟨h1, h2, processMessage_flow_empty h1⟩

/-- Witness for `C5_completion_idempotent`: the confirm button press on
a fully collected booking creates exactly one appointment, and its
re-delivery creates none. -/
theorem C5_completion_idempotent_witness :
    1 ≤ (processMessage {} (.obj confirmCtx) confirmMsg).appts
      ∧ ((processMessage {} (.obj confirmCtx) confirmMsg).stored.flow = ""
          ∧ (processMessage {} (.obj confirmCtx) confirmMsg).stored.step = ""
          ∧ (processMessage {} (.obj (processMessage {} (.obj confirmCtx) confirmMsg).stored) confirmMsg).appts = 0) :=
  ⟨by decide, C5_completion_idempotent {} {} (.obj confirmCtx) confirmMsg (by decide)⟩

/-- C6 (counterexample) — with an external classifier configured, the
deterministic pattern table is *not* consulted first: on the text
`hello` a pattern matches (`GREETING`), yet `detectIntent` returns the
external classifier's result instead of the pattern result. -/
theorem C6_counterexample :
    (checkQuickPatterns (normalizeText "hello")).isSome = true
      ∧ (detectIntent "hello" {} casualOracle).name = "CASUAL_CONVERSATION"
      ∧ (detectIntent "hello" {} casualOracle).name ≠ "GREETING" := by
  decide

/-- C6 (amended) — when no flow is active, the external classifier is
consulted *first* whenever it is configured and its result is returned
as the intent; the deterministic pattern table (first match in `Map`
insertion order, confidence 0.9, `UNKNOWN` 0.1 as final fallback) is
used only when no external classifier is configured.  Table order is
first-match-wins: a text matching both the booking and the cancellation
tables resolves to the earlier `BOOK_APPOINTMENT` entry. -/
theorem C6_amended_order (text : String) (ctx : Ctx) (r : ChatResp)
    (h : ¬ (ctx.flow ≠ "" ∧ ctx.step ≠ "")) :
    detectIntent text ctx none
        = (match checkQuickPatterns (normalizeText text) with
            | some n => { name := n, confidence := 0.9 }
            | none => { name := "UNKNOWN", confidence := 0.1 })
      ∧ detectIntent text ctx (some (.ok r))
          = { name := r.intent, confidence := r.confidence,
              chatResponse := some r.response,
              shouldUseBuiltIn := some r.shouldUseBuiltIn }
      ∧ checkQuickPatterns (normalizeText "cancel my appointment")
          = some "BOOK_APPOINTMENT" := by
  refine ⟨?_, ?_, by decide⟩ <;>
    (unfold detectIntent; dsimp only; rw [if_neg h])
  rfl

/-- Witness for `C6_amended_order` on a concrete no-flow state. -/
theorem C6_amended_order_witness :
    (detectIntent "hello" {} none
        = (match checkQuickPatterns (normalizeText "hello") with
            | some n => { name := n, confidence := 0.9 }
            | none => { name := "UNKNOWN", confidence := 0.1 })
      ∧ detectIntent "hello" {} (some (.ok chatGPTFallback))
          = { name := chatGPTFallback.intent, confidence := chatGPTFallback.confidence,
              chatResponse := some chatGPTFallback.response,
              shouldUseBuiltIn := some chatGPTFallback.shouldUseBuiltIn }
      ∧ checkQuickPatterns (normalizeText "cancel my appointment")
          = some "BOOK_APPOINTMENT") :=
  C6_amended_order "hello" {} chatGPTFallback (by decide)

/-- C8 — when the external classifier call fails or times out
(the `catch` of `analyzeWithChatGPT`), classification yields the
`UNKNOWN` intent at confidence 0.1 carrying the canned apology text,
no exception propagates, and the turn's response is not an error
response. -/
theorem C8_classifier_fallback (env : Env) (raw : RawStored) (msg : Msg)
    (horacle : env.oracle = some (.error ()))
    (hflow : ¬ ((parseStored raw).flow ≠ "" ∧ (parseStored raw).step ≠ ""))
    (hrate : env.rateCount ≤ 30) :
    (detectIntent msg.text (parseStored raw) env.oracle).name = "UNKNOWN"
      ∧ (detectIntent msg.text (parseStored raw) env.oracle).confidence = 0.1
      ∧ (detectIntent msg.text (parseStored raw) env.oracle).chatResponse
          = some chatGPTFallback.response
      ∧ (processMessage env raw msg).resp.metadataError = false := by
  refine ⟨?_, ?_, ?_, processMessage_noerror hrate⟩ <;>
    (unfold detectIntent; dsimp only; rw [if_neg hflow, horacle]; rfl)

/-- Witness for `C8_classifier_fallback` at a concrete failing call. -/
theorem C8_classifier_fallback_witness :
    ((detectIntent "когда работаете" (parseStored (.obj {})) (Env.oracle { oracle := some (.error ()) })).name = "UNKNOWN"
      ∧ (detectIntent "когда работаете" (parseStored (.obj {})) (Env.oracle { oracle := some (.error ()) })).confidence = 0.1
      ∧ (detectIntent "когда работаете" (parseStored (.obj {})) (Env.oracle { oracle := some (.error ()) })).chatResponse
          = some chatGPTFallback.response
      ∧ (processMessage { oracle := some (.error ()) } (.obj {}) { text := "когда работаете" }).resp.metadataError = false) :=
  C8_classifier_fallback { oracle := some (.error ()) } (.obj {}) { text := "когда работаете" }
    rfl (by decide) (by decide)

/-- C2 (counterexample) — a message consisting of an override keyword
does not always classify as `CANCEL_FLOW` in a flow: at the name step
`stop` classifies as `PROVIDE_NAME` (confidence 0.95), the English
keyword `cancel` is not in the override set at all (it yields
`CONTINUE_FLOW` at a cancellation step), and even when `CANCEL_FLOW`
is produced (at the confirmation step) the turn leaves `flow` and
`step` unchanged and non-empty, because the orchestrator has no
`CANCEL_FLOW` handler and routes the turn back into the flow. -/
theorem C2_counterexample :
    (detectIntent "stop" { flow := "BOOKING", step := "COLLECT_NAME" } none).name = "PROVIDE_NAME"
      ∧ (detectIntent "stop" { flow := "BOOKING", step := "COLLECT_NAME" } none).confidence = 0.95
      ∧ (detectIntent "stop" { flow := "BOOKING", step := "COLLECT_NAME" } none).name ≠ "CANCEL_FLOW"
      ∧ (detectIntent "cancel" { flow := "CANCELLATION", step := "SELECT_APPOINTMENT" } none).name = "CONTINUE_FLOW"
      ∧ (detectIntent "stop" confirmCtx none).name = "CANCEL_FLOW"
      ∧ (processMessage {} (.obj confirmCtx) { text := "stop" }).stored.flow = "BOOKING"
      ∧ (processMessage {} (.obj confirmCtx) { text := "stop" }).stored.step = "CONFIRMATION" :=
  ⟨by decide, rfl, by decide, by decide, by decide, by decide, by decide⟩

/-- C2 (amended) — the override check fires only at steps without a
step-specific in-flow interpretation (any step other than the
name/phone/selection steps, including the confirmation step when
neither the yes nor the no keyword set matches): there `stop` yields
`CANCEL_FLOW` at confidence 0.99.  Handling such a turn does not empty
the flow: at the confirmation step the turn re-prompts and the
persisted state keeps `flow = BOOKING`, `step = CONFIRMATION`. -/
theorem C2_amended_override :
    (∀ (ctx : Ctx) (oracle : Option (Except Unit ChatResp)),
        ctx.flow ≠ "" → ctx.step ≠ "" →
        ctx.step ≠ "COLLECT_NAME" → ctx.step ≠ "COLLECT_PHONE" →
        ctx.step ≠ "SELECT_SERVICE" → ctx.step ≠ "SELECT_DOCTOR" →
        ctx.step ≠ "SELECT_DATE" → ctx.step ≠ "SELECT_TIME" →
        (detectIntent "stop" ctx oracle).name = "CANCEL_FLOW"
          ∧ (detectIntent "stop" ctx oracle).confidence = 0.99)
      ∧ (∀ (env : Env), env.rateCount ≤ 30 →
          (processMessage env (.obj confirmCtx) { text := "stop" }).stored.flow = "BOOKING"
            ∧ (processMessage env (.obj confirmCtx) { text := "stop" }).stored.step = "CONFIRMATION") := by
  constructor
  · intro ctx oracle h1 h2 h3 h4 h5 h6 h7 h8
    have hyes : testPat (normalizeText "stop") yesPat = false := by decide
    have hno : testPat (normalizeText "stop") noPat = false := by decide
    have hov : testPat (normalizeText "stop") overridePat = true := by decide
    unfold detectIntent
    dsimp only
    rw [if_pos ⟨h1, h2⟩]
    unfold analyzeInFlow
    rw [if_neg h3, if_neg h4, if_neg (by simp [h5, h6, h7, h8]),
        if_neg (by simp [hyes]), if_neg (by simp [hno]), if_pos hov]
    exact ⟨rfl, rfl⟩
  · intro env hrate
    unfold processMessage
    dsimp only
    rw [if_neg (by omega)]
    have hdi : detectIntent "stop" (parseStored (.obj confirmCtx)) env.oracle
        = { name := "CANCEL_FLOW", confidence := 0.99 } := by
      unfold detectIntent
      dsimp only
      rw [if_pos (by decide)]
      rfl
    rw [hdi]
    have hfg : forceGreeting "stop" { name := "CANCEL_FLOW", confidence := 0.99 }
        = { name := "CANCEL_FLOW", confidence := 0.99 } := rfl
    rw [hfg]
    have hbi : buttonIntent { text := "stop" } { name := "CANCEL_FLOW", confidence := 0.99 }
        = { name := "CANCEL_FLOW", confidence := 0.99 } := rfl
    rw [hbi]
    have hhi :
        handleIntent { name := "CANCEL_FLOW", confidence := 0.99 }
            (parseStored (.obj confirmCtx)) { text := "stop" } env
          = { ctx := confirmCtx,
              resp := { rtype := "text",
                        text := "Пожалуйста, выберите \"Подтвердить\" или \"Отменить\"." } } := by
      unfold handleIntent
      dsimp only
      rw [if_neg (by decide)]
      unfold handleIntentSwitch
      rw [if_neg (by decide), if_neg (by decide), if_neg (by decide), if_neg (by decide),
          if_neg (by decide), if_neg (by decide), if_neg (by decide), if_pos (by decide)]
      unfold handleCurrentFlow
      rw [if_neg (by decide), if_neg (by decide)]
      have hgf : getFlow (parseStored (.obj confirmCtx)).flow = some bookingFlow := by decide
      rw [hgf]
      dsimp only
      have hfind : bookingFlow.steps.find? (fun s => s.id == (parseStored (.obj confirmCtx)).step)
          = some { id := "CONFIRMATION", message := "Подтвердите запись", stepType := "confirmation" } := by
        decide
      rw [hfind]
      dsimp only
      rw [if_pos (by decide), if_neg (by decide), if_neg (by decide)]
      rfl
    rw [hhi]
    exact ⟨rfl, rfl⟩

/-- Witness for `C2_amended_override` at a cancellation-flow step and a
concrete confirmation turn. -/
theorem C2_amended_override_witness :
    ((detectIntent "stop" { flow := "CANCELLATION", step := "SELECT_APPOINTMENT" } none).name = "CANCEL_FLOW"
      ∧ (detectIntent "stop" { flow := "CANCELLATION", step := "SELECT_APPOINTMENT" } none).confidence = 0.99)
      ∧ ((processMessage {} (.obj confirmCtx) { text := "stop" }).stored.flow = "BOOKING"
          ∧ (processMessage {} (.obj confirmCtx) { text := "stop" }).stored.step = "CONFIRMATION") :=
  ⟨C2_amended_override.1 { flow := "CANCELLATION", step := "SELECT_APPOINTMENT" } none
      (by decide) (by decide) (by decide) (by decide) (by decide) (by decide) (by decide) (by decide),
    C2_amended_override.2 {} (by decide)⟩

/-- C7 (counterexample) — a rejected input does leave the state
unchanged, but the response is the failing rule's message *alone*: the
step's prompt (`Укажите ваш номер телефона`) is not re-rendered
together with it, contradicting the claim's "identical step prompt
together with the failing rule's message". -/
theorem C7_counterexample :
    (processMessage {} (.obj phoneCtx) { text := "abc" }).resp.text
        = "Неверный формат номера телефона"
      ∧ jsIncludes "Укажите ваш номер телефона"
          (processMessage {} (.obj phoneCtx) { text := "abc" }).resp.text = false
      ∧ (processMessage {} (.obj phoneCtx) { text := "abc" }).stored.step = "COLLECT_PHONE"
      ∧ (processMessage {} (.obj phoneCtx) { text := "abc" }).stored.flow = "BOOKING" := by
  decide

/-- C7 (amended) — for every input rejected by a validation rule of the
phone step, the turn leaves `flow`, `step` and all collected data
unchanged (only the bookkeeping `lastMessageTime` mark is refreshed),
creates no appointment, performs only the final `updateSession` write,
and replies with exactly the failing rule's message (the source falls
back to a generic text when the rule has an empty message) — the step
prompt is not repeated. -/
theorem C7_amended_validation (env : Env) (input : String)
    (hrate : env.rateCount ≤ 30)
    (hv : (validateInput input collectPhoneStep).valid = false)
    (hg1 : jsIncludes "привет" (jsLowerStr input) = false)
    (hg2 : jsIncludes "hello" (jsLowerStr input) = false)
    (hg3 : jsIncludes "start" (jsLowerStr input) = false) :
    (processMessage env (.obj phoneCtx) { text := input }).stored.step = "COLLECT_PHONE"
      ∧ (processMessage env (.obj phoneCtx) { text := input }).stored.flow = "BOOKING"
      ∧ (processMessage env (.obj phoneCtx) { text := input }).stored.data
          = { phoneCtx.data with lastMessageTime := true }
      ∧ (processMessage env (.obj phoneCtx) { text := input }).resp.text
          = jsOrDefault (validateInput input collectPhoneStep).message
              "Неверный ввод. Попробуйте снова."
      ∧ (processMessage env (.obj phoneCtx) { text := input }).appts = 0
      ∧ (processMessage env (.obj phoneCtx) { text := input }).writes.length = 1 := by
  unfold processMessage
  dsimp only
  rw [if_neg (by omega)]
  have hdi : detectIntent input (parseStored (.obj phoneCtx)) env.oracle
      = { name := "PROVIDE_PHONE", confidence := 0.95 } := by
    unfold detectIntent
    dsimp only
    rw [if_pos (by decide)]
    rfl
  rw [hdi]
  have hfg : forceGreeting input { name := "PROVIDE_PHONE", confidence := 0.95 }
      = { name := "PROVIDE_PHONE", confidence := 0.95 } := by
    unfold forceGreeting
    rw [if_neg]
    simp [hg1, hg2, hg3]
  rw [hfg]
  have hbi : buttonIntent { text := input } { name := "PROVIDE_PHONE", confidence := 0.95 }
      = { name := "PROVIDE_PHONE", confidence := 0.95 } := by
    unfold buttonIntent
    rw [if_neg]
    simp [jsBtn, jsTruthyStr]
  rw [hbi]
  have hhi :
      handleIntent { name := "PROVIDE_PHONE", confidence := 0.95 }
          (parseStored (.obj phoneCtx)) { text := input } env
        = { ctx := phoneCtx,
            resp := { rtype := "text",
                      text := jsOrDefault (validateInput input collectPhoneStep).message
                        "Неверный ввод. Попробуйте снова." } } := by
    unfold handleIntent
    dsimp only
    rw [if_neg (by simp [jsBtn, jsTruthyStr])]
    unfold handleIntentSwitch
    rw [if_neg (by decide), if_neg (by decide), if_neg (by decide), if_neg (by decide),
        if_neg (by decide), if_neg (by decide), if_neg (by decide), if_pos (by decide)]
    unfold handleCurrentFlow
    rw [if_neg (by decide), if_neg (by decide)]
    have hgf : getFlow (parseStored (.obj phoneCtx)).flow = some bookingFlow := by decide
    rw [hgf]
    dsimp only
    have hfind : bookingFlow.steps.find? (fun s => s.id == (parseStored (.obj phoneCtx)).step)
        = some collectPhoneStep := by decide
    rw [hfind]
    dsimp only
    rw [if_neg (by decide), if_pos hv]
    rfl
  rw [hhi]
  refine ⟨rfl, rfl, rfl, rfl, rfl, rfl⟩

/-- Witness for `C7_amended_validation` on a malformed phone number. -/
theorem C7_amended_validation_witness :
    ((processMessage {} (.obj phoneCtx) { text := "abc" }).stored.step = "COLLECT_PHONE"
      ∧ (processMessage {} (.obj phoneCtx) { text := "abc" }).stored.flow = "BOOKING"
      ∧ (processMessage {} (.obj phoneCtx) { text := "abc" }).stored.data
          = { phoneCtx.data with lastMessageTime := true }
      ∧ (processMessage {} (.obj phoneCtx) { text := "abc" }).resp.text
          = jsOrDefault (validateInput "abc" collectPhoneStep).message
              "Неверный ввод. Попробуйте снова."
      ∧ (processMessage {} (.obj phoneCtx) { text := "abc" }).appts = 0
      ∧ (processMessage {} (.obj phoneCtx) { text := "abc" }).writes.length = 1) :=
  C7_amended_validation {} "abc" (by decide) (by decide) (by decide) (by decide) (by decide)
